import Mathlib

/-!
Verification development for the Milvus similarity backend
(`src/milvus.py`): a shallow embedding of the adapter's data model and
operations, with theorems settling the specified properties.

Vectors are modelled over `ℚ` (the source manipulates Python floats only
through structural operations and one componentwise mean, all exact here).
The remote collection is modelled as a list of rows; every remote call the
adapter issues (query / delete / insert / search) is recorded in an
operation log so that ordering claims ("raised before any insert") are
statable.
-/

set_option autoImplicit false

namespace Milvus

universe u

/-- Python exception classes raised (directly or via `numpy`/`pymilvus`) by
the code paths modelled here. -/
inductive PyErr where
  | valueError (msg : String)
  | keyError (key : String)
  | indexError (msg : String)
  | typeError (msg : String)
  | dataNotMatch (msg : String)
  deriving DecidableEq, Repr

/-- A Python value appearing in an insert column: either a scalar float or a
list of floats.  (After the source's `np.delete` without `axis`, the
"embeddings" become scalars; see `add_to_index`.) -/
inductive PyVal where
  | pnum (q : ℚ)
  | plist (l : List ℚ)
  deriving DecidableEq, Repr

/-- A numeric numpy array of dimension 1 or 2, the only shapes the adapter
produces. -/
inductive NpArr where
  | one (xs : List ℚ)
  | two (xss : List (List ℚ))
  deriving DecidableEq, Repr

def NpArr.ndim : NpArr → Nat
  | .one _ => 1
  | .two _ => 2

/-- `np.delete(xs, inds)` on a 1-D array: drop the elements at the given
indices. -/
def npDelete1 {α : Type u} (xs : List α) (inds : List Nat) : List α :=
  (xs.enum.filter (fun p => ! inds.contains p.1)).map Prod.snd

/-- `np.delete(a, inds)` without an `axis` argument: numpy first flattens
the array, then deletes at the flat indices.  The result is always 1-D. -/
def NpArr.deleteNoAxis : NpArr → List Nat → NpArr
  | .one xs, inds => .one (npDelete1 xs inds)
  | .two xss, inds => .one (npDelete1 xss.flatten inds)

/-- `[e.tolist() for e in a]`: iterating a 2-D array yields its rows (as
lists); iterating a 1-D array yields scalars. -/
def NpArr.toPyList : NpArr → List PyVal
  | .one xs => xs.map .pnum
  | .two xss => xss.map .plist

/-- `a.mean(axis=0)` on a 2-D array: the componentwise (column) mean.
numpy arrays are rectangular, so the `getD` default is never consulted on
the shapes produced by the source. -/
def npMeanAxis0 : List (List ℚ) → List ℚ
  | [] => []
  | r0 :: rest =>
      (List.range r0.length).map
        (fun j => ((r0 :: rest).map (fun row => row.getD j 0)).sum /
          (((r0 :: rest).length : ℚ)))

/-- Structural worker for `chunks`; the fuel is the list length, enough
since each step (with `n > 0`) consumes at least one element. -/
def chunksAux {α : Type u} (n : Nat) : Nat → List α → List (List α)
  | _, [] => []
  | 0, _ :: _ => []
  | fuel + 1, x :: xs => ((x :: xs).take n) :: chunksAux n fuel ((x :: xs).drop n)

/-- `fou.iter_batches(l, n)`: successive chunks of size `n` (the `n = 0`
case never arises in the source). -/
def chunks {α : Type u} (n : Nat) (l : List α) : List (List α) :=
  if n = 0 then [] else chunksAux n l.length l

/-- Python's `zip` over three iterables: truncates to the shortest. -/
def zip3 {α β γ : Type u} : List α → List β → List γ → List (α × β × γ)
  | x :: xs, y :: ys, z :: zs => (x, y, z) :: zip3 xs ys zs
  | _, _, _ => []

/-- A Python `set(l)` read back as a list; modelled with first-occurrence
order (the source only takes lengths, membership and an arbitrary element
of such sets). -/
def pyset {α : Type u} [DecidableEq α] (l : List α) : List α :=
  l.foldl (fun acc x => if x ∈ acc then acc else acc ++ [x]) []

/-- One stored entity of the remote collection: the 3-field schema
(`pk`, `vector`, `sample_id`). -/
structure Row where
  pk : String
  vector : List ℚ
  sample_id : String
  deriving DecidableEq, Repr

/-- The remote collection's contents.  All operations below assume the
collection exists (the `has_collection` / `_create_collection` bootstrap is
not modelled: every claim concerns a collection that already holds rows). -/
abbrev Collection := List Row

/-- A remote call issued by the adapter, in issue order. -/
inductive RemoteOp where
  | queryIds (ids : List String)
  | deleteIds (ids : List String)
  | insertRows (pks : List String) (vectors : List PyVal) (sample_ids : List String)
  | search (data : List ℚ) (limit : Nat) (allowed : List String)
  deriving DecidableEq, Repr

/-- The derived index-build parameter block. -/
structure IndexParams where
  metric_type : String
  index_type : String
  M : Nat
  efConstruction : Nat
  deriving DecidableEq, Repr

/-- The derived search-time parameter block (keyed by index kind `HNSW` in
the source; only the inner block matters here). -/
structure SearchParams where
  metric_type : String
  ef : Nat
  deriving DecidableEq, Repr

/-- `MilvusSimilarityConfig`: the fields relevant to the modelled
behaviour. -/
structure MilvusSimilarityConfig where
  embeddings_field : Option String
  patches_field : Option String
  metric : Option String
  collection_name : String
  uri : String
  user : String
  password : String
  consistency_level : String
  index_params : IndexParams
  search_params : SearchParams
  deriving DecidableEq, Repr

def MilvusSimilarityConfig.max_k (_ : MilvusSimilarityConfig) : Nat := 16384

def MilvusSimilarityConfig.supports_least_similarity
    (_ : MilvusSimilarityConfig) : Bool := false

def MilvusSimilarityConfig.supported_aggregations
    (_ : MilvusSimilarityConfig) : List String := ["mean"]

/-- `_SUPPORTED_METRICS` from the source. -/
def SUPPORTED_METRICS : List (String × String) :=
  [("dotproduct", "IP"), ("euclidean", "L2")]

/-- `_SUPPORTED_METRICS[metric]`: a Python dict lookup.  The dict's keys
are strings, so looking up `None` raises `KeyError`. -/
def metricLookup : Option String → Except PyErr String
  | none => .error (.keyError "None")
  | some m =>
      match SUPPORTED_METRICS.lookup m with
      | some v => .ok v
      | none => .error (.keyError m)

/-- `MilvusSimilarityConfig.__init__`: validates the metric (only when it
is not `None`), then computes the derived `index_params` and
`search_params` via `_SUPPORTED_METRICS[metric]`. -/
def MilvusSimilarityConfig.init (embeddings_field patches_field : Option String)
    (metric : Option String)
    (collection_name uri user password consistency_level : String) :
    Except PyErr MilvusSimilarityConfig :=
  if (match metric with
      | some m => (SUPPORTED_METRICS.lookup m).isNone
      | none => false) then
    .error (.valueError ("Unsupported metric '" ++ metric.getD "None" ++
      "'. Supported values are (dotproduct, euclidean)"))
  else
    match metricLookup metric with
    | .error e => .error e
    | .ok mt =>
        .ok ⟨embeddings_field, patches_field, metric, collection_name, uri,
          user, password, consistency_level, ⟨mt, "HNSW", 8, 64⟩, ⟨mt, 10⟩⟩

/-- Modelled from the spec: `add_to_index` and `remove_from_index` call
`self.get_existing_ids`, which is not defined in `src/milvus.py` (the
file only defines `_get_existing_ids`, a remote `pk in [...]` query).
Per the spec it "query[s] remote for which of the effective IDs already
exist": the effective IDs whose primary key is present remotely, as a
set. -/
def get_existing_ids (col : Collection) (ids : List String) : List String :=
  pyset (ids.filter (fun i => col.any (fun r => r.pk == i)))

/-- `_get_embeddings(ids)` / `get_collection().query("pk in [ids]")`:
the remote rows whose primary key is among `ids`, in collection order. -/
def query_by_pks (col : Collection) (ids : List String) : List Row :=
  col.filter (fun r => ids.contains r.pk)

/-- `_delete_ids(ids)` applied to the collection state: every row whose
primary key is among `ids` is removed remotely. -/
def delete_pks (col : Collection) (ids : List String) : Collection :=
  col.filter (fun r => ! ids.contains r.pk)

/-- `get_collection().insert([pks, vectors, sample_ids])`: the remote
service validates that the three columns agree in length and that the
vector column holds lists (not scalars), then appends one entity per row.
(The schema's dimension check is not modelled; no claim depends on it.) -/
def insertColumns (col : Collection) (pks : List String) (vectors : List PyVal)
    (sample_ids : List String) : Except PyErr Collection :=
  if pks.length = vectors.length ∧ vectors.length = sample_ids.length then
    if vectors.all (fun v => match v with | .plist _ => true | .pnum _ => false) then
      .ok (col ++ (zip3 pks vectors sample_ids).map
        (fun t => ⟨t.1, (match t.2.1 with | .plist l => l | .pnum q => [q]), t.2.2⟩))
    else .error (.typeError "float vector field expects list data")
  else .error (.dataNotMatch "column lengths differ")

/-- The per-batch insert loop at the end of `add_to_index`. -/
def insertBatches (col : Collection) (ops : List RemoteOp) :
    List (List PyVal × List String × List String) →
    List RemoteOp × Except PyErr Collection
  | [] => (ops, .ok col)
  | (embB, idB, sidB) :: rest =>
      match insertColumns col idB embB sidB with
      | .error e => (ops, .error e)
      | .ok col2 => insertBatches col2 (ops ++ [.insertRows idB embB sidB]) rest

/-- `MilvusSimilarityIndex.add_to_index`.  The result pairs the log of
remote calls issued with either the raised exception or the final
collection state.  Mirrored from the source:

* existing IDs are only fetched when
  `warn_existing or not allow_existing or not overwrite`;
* with `overwrite=False`, rows at conflicting positions are removed with
  `np.delete` — without an `axis` argument, which flattens the 2-D
  embeddings — and the `ids` list itself is never rebuilt afterwards;
* with `overwrite=True` (and existing IDs fetched), the existing IDs are
  deleted remotely first;
* the remaining data is inserted in batches of `batch_size`.

Warnings are log-only and have no modelled effect. -/
def add_to_index (col : Collection) (embeddings : NpArr)
    (sample_ids : List String) (label_ids : Option (List String))
    (overwrite allow_existing warn_existing : Bool) (batch_size : Nat) :
    List RemoteOp × Except PyErr Collection :=
  let ids := label_ids.getD sample_ids
  let fetchExisting := warn_existing || !allow_existing || !overwrite
  let existing_ids := if fetchExisting then get_existing_ids col ids else []
  let ops0 : List RemoteOp := if fetchExisting then [.queryIds ids] else []
  if existing_ids.length > 0 ∧ allow_existing = false then
    (ops0, .error (.valueError ("Found " ++ toString existing_ids.length ++
      " IDs (eg " ++ existing_ids.headD "" ++ ") that already exist in the index")))
  else
    let step :=
      if existing_ids ≠ [] ∧ overwrite = false then
        let del_inds := (ids.enum.filter
          (fun p => existing_ids.contains p.2)).map Prod.fst
        (embeddings.deleteNoAxis del_inds, npDelete1 sample_ids del_inds,
          ops0, col)
      else if existing_ids ≠ [] ∧ overwrite = true then
        (embeddings, sample_ids, ops0 ++ [RemoteOp.deleteIds existing_ids],
          delete_pks col existing_ids)
      else
        (embeddings, sample_ids, ops0, col)
    match step with
    | (emb2, sids2, ops1, col1) =>
        let embList := emb2.toPyList
        -- NOTE: the source zips batches of the *original* `ids` list here —
        -- it never recomputes `ids` after the `np.delete` reconciliation.
        let batches := zip3 (chunks batch_size embList) (chunks batch_size ids)
          (chunks batch_size sids2)
        insertBatches col1 ops1 batches

/-- `MilvusSimilarityIndex.remove_from_index`.  Mirrored from the source,
including the inverted missing-ID set: it computes
`set(existing_ids) - set(ids)` (existing minus requested) rather than
the requested IDs that are absent.  Since the existing IDs are by
construction a subset of the requested ones, that set is always empty,
so the "not present in the index" branch is unreachable. -/
def remove_from_index (col : Collection)
    (sample_ids label_ids : Option (List String))
    (allow_missing warn_missing : Bool) :
    List RemoteOp × Except PyErr Collection :=
  match label_ids.orElse (fun _ => sample_ids) with
  | none => ([], .error (.typeError "NoneType object is not iterable"))
  | some ids =>
      if allow_missing = false ∨ warn_missing = true then
        let existing_ids := get_existing_ids col ids
        let missing_ids := pyset (existing_ids.filter (fun i => ! ids.contains i))
        if missing_ids.length > 0 ∧ allow_missing = false then
          -- unreachable: in Python this branch would additionally fail on
          -- `missing_ids[0]` (indexing a set)
          ([.queryIds ids], .error (.valueError ("Found " ++
            toString missing_ids.length ++ " IDs (eg " ++ missing_ids.headD "" ++
            ") that are not present in the index")))
        else
          ([.queryIds ids, .deleteIds ids], .ok (delete_pks col ids))
      else
        ([.deleteIds ids], .ok (delete_pks col ids))

/-- Modelled from the spec: `_get_patch_embeddings_from_sample_ids` calls
`self.get_dim()`, which is not defined in `src/milvus.py`; the spec's
"zero vector search" needs the collection's vector dimension, fixed at
creation and shared by every stored row. -/
def get_dim : Collection → Nat
  | [] => 0
  | r :: _ => r.vector.length

/-- The ranking key of the remote vector search: squared L2 distance for
the `L2` metric, negated inner product for `IP` (so that smaller is
always closer). -/
def vecDist (metric_type : String) (q v : List ℚ) : ℚ :=
  if metric_type = "IP" then -((q.zipWith (fun a b => a * b) v).sum)
  else (q.zipWith (fun a b => (a - b) * (a - b)) v).sum

def insertSorted {α : Type u} (le : α → α → Bool) (x : α) : List α → List α
  | [] => [x]
  | y :: ys => if le x y then x :: y :: ys else y :: insertSorted le x ys

def sortByKey {α : Type u} (le : α → α → Bool) (l : List α) : List α :=
  l.foldr (insertSorted le) []

/-- `get_collection().search(data=[qv], expr="pk in [allowed]", limit)`:
the rows passing the primary-key filter, ranked by the metric's distance
to the query vector, truncated to `limit`.  The remote service's
tie-breaking order is unspecified; it is modelled as a deterministic
sort (no claim depends on the order of equidistant rows). -/
def searchHits (cfg : MilvusSimilarityConfig) (col : Collection)
    (qv : List ℚ) (allowed : List String) (limit : Nat) : List Row :=
  (sortByKey (fun r1 r2 =>
      decide (vecDist cfg.index_params.metric_type qv r1.vector ≤
        vecDist cfg.index_params.metric_type qv r2.vector))
    (col.filter (fun r => allowed.contains r.pk))).take limit

/-- `_get_sample_embeddings(sample_ids, batch_size=1000)`: direct lookup
of the requested sample IDs (as primary keys), batched; the missing set
is `set(sample_ids) - set(found_sample_ids)`.  The third component is the
returned `label_ids`, which is `None` in this mode. -/
def sample_embeddings_lookup (col : Collection)
    (sample_ids : Option (List String)) (batch_size : Nat) :
    Except PyErr (List (List ℚ) × List String × Option (List String) × List String) :=
  match sample_ids with
  | none => .error (.valueError
      "Milvus does not support retrieving all vectors in an index")
  | some sids =>
      let found := (chunks batch_size sids).foldl
        (fun acc batch => acc ++ query_by_pks col batch) []
      let found_sample_ids := found.map Row.sample_id
      let missing_ids := pyset (sids.filter (fun i => ! found_sample_ids.contains i))
      .ok (found.map Row.vector, found_sample_ids, none, missing_ids)

/-- `_get_patch_embeddings_from_sample_ids(sample_ids, batch_size=100)`:
for each batch, a zero-vector probe search filtered by
`pk in [batch]` (note: the source filters the *primary keys* against the
sample IDs) with `limit = min(batch_size, max_k)`, then a direct query for
the hit primary keys; the missing set is
`set(sample_ids) - set(found_sample_ids)`. -/
def patch_embeddings_from_sample_ids (cfg : MilvusSimilarityConfig)
    (col : Collection) (sample_ids : List String) (batch_size : Nat) :
    List (List ℚ) × List String × Option (List String) × List String :=
  let query_vector := List.replicate (get_dim col) (0 : ℚ)
  let top_k := min batch_size cfg.max_k
  let found := (chunks batch_size sample_ids).foldl
    (fun acc batch =>
      let hits := searchHits cfg col query_vector batch top_k
      acc ++ query_by_pks col (hits.map Row.pk)) []
  let found_sample_ids := found.map Row.sample_id
  let missing_ids := pyset (sample_ids.filter (fun i => ! found_sample_ids.contains i))
  (found.map Row.vector, found_sample_ids, some (found.map Row.pk), missing_ids)

/-- A dynamically-typed Python value, as far as the return shape of the
public `get_embeddings` needs: numpy arrays, strings, numbers, tuples and
`None`. -/
inductive Dyn where
  | dstr (s : String)
  | dnum (q : ℚ)
  | darr (l : List Dyn)
  | dtup (l : List Dyn)
  | dnone
  deriving Repr

def vecDyn (v : List ℚ) : Dyn := .darr (v.map .dnum)

/-- Subscripting a Python value with a string key.  A numeric-indexed
container (numpy array, tuple, string) rejects a string subscript. -/
def dynGetItemStr : Dyn → String → Except PyErr Dyn
  | .darr _, _ => .error (.indexError "arrays cannot be indexed by str")
  | .dtup _, _ => .error (.typeError "tuple indices must be integers")
  | .dstr _, _ => .error (.typeError "string indices must be integers")
  | .dnum _, _ => .error (.typeError "float object is not subscriptable")
  | .dnone, _ => .error (.typeError "NoneType object is not subscriptable")

/-- Iterating a Python value (`for r in response`). -/
def dynMembers : Dyn → Except PyErr (List Dyn)
  | .dtup l => .ok l
  | .darr l => .ok l
  | .dstr _ => .error (.typeError "string iteration is not modelled")
  | .dnum _ => .error (.typeError "float object is not iterable")
  | .dnone => .error (.typeError "NoneType object is not iterable")

/-- Best-effort readback of a dynamic value as a vector / as a string.
Only reachable if the subscripts in `appendFound` succeed, which they
never do on the shapes the source produces; totality requires them. -/
def dynToVec : Dyn → List ℚ
  | .darr l => l.filterMap (fun d => match d with | .dnum q => some q | _ => none)
  | _ => []

def dynToStr : Dyn → String
  | .dstr s => s
  | _ => ""

/-- The inner loop of `_get_patch_embeddings_from_label_ids`:
`for r in response: found_embeddings.append(r["vector"]); ...` applied to
the members of the (tuple) response of the public `get_embeddings`. -/
def appendFound : List Dyn → List (List ℚ) → List String → List String →
    Except PyErr (List (List ℚ) × List String × List String)
  | [], accE, accS, accL => .ok (accE, accS, accL)
  | r :: rest, accE, accS, accL =>
      match dynGetItemStr r "vector" with
      | .error e => .error e
      | .ok v =>
          match dynGetItemStr r "sample_id" with
          | .error e => .error e
          | .ok s =>
              match dynGetItemStr r "pk" with
              | .error e => .error e
              | .ok p => appendFound rest (accE ++ [dynToVec v])
                  (accS ++ [dynToStr s]) (accL ++ [dynToStr p])

/-- The batch loop of `_get_patch_embeddings_from_label_ids`.  `inner` is
the bound method `self.get_embeddings` — the *public* method, which the
source calls here (unlike `_get_sample_embeddings`, which calls
`self._get_embeddings`) — invoked as `inner sample_ids label_ids
allow_missing warn_missing` with the batch passed positionally as
`sample_ids`. -/
def label_ids_batches
    (inner : Option (List String) → Option (List String) → Bool → Bool →
      Except PyErr Dyn) :
    List (List String) → List (List ℚ) → List String → List String →
    Except PyErr (List (List ℚ) × List String × List String)
  | [], accE, accS, accL => .ok (accE, accS, accL)
  | batch :: rest, accE, accS, accL =>
      match inner (some batch) none true false with
      | .error e => .error e
      | .ok response =>
          match dynMembers response with
          | .error e => .error e
          | .ok members =>
              match appendFound members accE accS accL with
              | .error e => .error e
              | .ok (e2, s2, l2) => label_ids_batches inner rest e2 s2 l2

/-- `_get_patch_embeddings_from_label_ids(label_ids, batch_size=1000)`:
direct mode for patch indexes.  The source fetches each batch through the
public `self.get_embeddings` (whose result is a 3-tuple of arrays) and
then iterates that tuple subscripting with `"vector"`/`"sample_id"`/`"pk"`. -/
def get_patch_embeddings_from_label_ids
    (inner : Option (List String) → Option (List String) → Bool → Bool →
      Except PyErr Dyn)
    (label_ids : Option (List String)) (batch_size : Nat) :
    Except PyErr (List (List ℚ) × List String × Option (List String) × List String) :=
  match label_ids with
  | none => .error (.valueError
      "Milvus does not support retrieving all vectors in an index")
  | some lids =>
      match label_ids_batches inner (chunks batch_size lids) [] [] [] with
      | .error e => .error e
      | .ok (found_embeddings, found_sample_ids, found_label_ids) =>
          let missing_ids := pyset (lids.filter (fun i => ! found_label_ids.contains i))
          .ok (found_embeddings, found_sample_ids, some found_label_ids, missing_ids)

/-- `MilvusSimilarityIndex.get_embeddings`, with a recursion fuel for the
self-call inside `_get_patch_embeddings_from_label_ids` (that call always
passes a non-`None` `sample_ids`, so a fuel of 2 suffices; the
fuel-exhausted error is unreachable from `get_embeddings`).  Mirrored
from the source:

* `label_ids` without a configured patches field fails;
* when both `label_ids` and `sample_ids` are given, the source logs
  "Ignoring sample IDs when label IDs are provided" but the dispatch
  below still selects on `sample_ids` first;
* after fetching, missing IDs fail when `allow_missing` is false;
* the result is the tuple `(np.array(embeddings), np.array(sample_ids),
  label_ids and np.array(label_ids))`. -/
def get_embeddings_fuel : Nat → MilvusSimilarityConfig → Collection →
    Option (List String) → Option (List String) → Bool → Bool →
    Except PyErr Dyn
  | 0, _, _, _, _, _, _ => .error (.typeError "recursion fuel exhausted")
  | fuel + 1, cfg, col, sample_ids, label_ids, allow_missing, _warn_missing =>
      if label_ids.isSome ∧ cfg.patches_field = none then
        .error (.valueError "This index does not support label IDs")
      else
        match
          (if sample_ids.isSome ∧ cfg.patches_field.isSome then
            .ok (patch_embeddings_from_sample_ids cfg col (sample_ids.getD []) 100)
          else if cfg.patches_field.isSome then
            get_patch_embeddings_from_label_ids
              (fun s l am wm => get_embeddings_fuel fuel cfg col s l am wm)
              label_ids 1000
          else
            sample_embeddings_lookup col sample_ids 1000) with
        | .error e => .error e
        | .ok (embeddings, sids, lids, missing_ids) =>
            if missing_ids.length > 0 ∧ allow_missing = false then
              .error (.valueError ("Found " ++ toString missing_ids.length ++
                " IDs (eg " ++ missing_ids.headD "" ++
                ") that do not exist in the index"))
            else
              .ok (.dtup [.darr (embeddings.map vecDyn),
                .darr (sids.map Dyn.dstr),
                (match lids with
                 | some l => .darr (l.map Dyn.dstr)
                 | none => Dyn.dnone)])

/-- `MilvusSimilarityIndex.get_embeddings`. -/
def get_embeddings (cfg : MilvusSimilarityConfig) (col : Collection)
    (sample_ids label_ids : Option (List String))
    (allow_missing warn_missing : Bool) : Except PyErr Dyn :=
  get_embeddings_fuel 2 cfg col sample_ids label_ids allow_missing warn_missing

/-- A caller's neighbors query, tagging the duck-typed cases the source
distinguishes: a single string ID, a list of string IDs, or literal
numeric vector(s). -/
inductive NQuery where
  | qstr (s : String)
  | qids (ids : List String)
  | qnum (a : NpArr)
  deriving DecidableEq, Repr

/-- `_parse_neighbors_query`.  Numeric input is returned as-is.  String
input resolves the ID(s) to stored vectors via `_get_embeddings` (a
remote query, logged); `np.array` of the found vectors has shape `(m, d)`
for `m > 0` found rows and shape `(0,)` (one dimension) when nothing is
found.  For a single-string query the source then takes `query[0, :]`,
which raises `IndexError` on the empty result. -/
def parse_neighbors_query (col : Collection) (q : NQuery) :
    List RemoteOp × Except PyErr NpArr :=
  match q with
  | .qnum a => ([], .ok a)
  | .qstr s =>
      let vecs := (query_by_pks col [s]).map Row.vector
      ([.queryIds [s]],
        match vecs with
        | [] => .error (.indexError "index 0 is out of bounds")
        | v :: _ => .ok (.one v))
  | .qids l =>
      let vecs := (query_by_pks col l).map Row.vector
      ([.queryIds l],
        .ok (match vecs with
          | [] => .one []
          | v :: vs => .two (v :: vs)))

/-- The value returned by `_kneighbors`: flat lists for a single query
vector, one list per query vector otherwise; distances only when
`return_dists` is set. -/
inductive KnnOut where
  | flatIds (ids : List String)
  | nestedIds (idss : List (List String))
  | flatPair (ids : List String) (dists : List ℚ)
  | nestedPair (idss : List (List String)) (dists : List (List ℚ))
  deriving DecidableEq, Repr

/-- `MilvusSimilarityIndex._kneighbors`.  Mirrored from the source:

1. validation — `query is None`, `reverse`, `k is None or k > max_k`,
   `aggregation not in (None, "mean")` — each raising `ValueError` before
   any remote call;
2. query resolution via `_parse_neighbors_query`;
3. with `aggregation == "mean"` and a 2-D resolved query, collapse to the
   columnwise mean before searching;
4. the search filter is the current live ID set (label IDs when a patches
   field is configured, sample IDs otherwise);
5. one remote search per remaining query vector;
6. flat result lists for a single query vector. -/
def kneighbors (cfg : MilvusSimilarityConfig) (col : Collection)
    (current_sample_ids current_label_ids : List String)
    (query : Option NQuery) (k : Option Nat) (reverse : Bool)
    (aggregation : Option String) (return_dists : Bool) :
    List RemoteOp × Except PyErr KnnOut :=
  match query with
  | none => ([], .error (.valueError "Milvus does not support full index neighbors"))
  | some q0 =>
    if reverse = true then
      ([], .error (.valueError "Milvus does not support least similarity queries"))
    else
      match k with
      | none => ([], .error (.valueError ("Milvus requires k<=" ++ toString cfg.max_k)))
      | some kv =>
        if kv > cfg.max_k then
          ([], .error (.valueError ("Milvus requires k<=" ++ toString cfg.max_k)))
        else if ¬ (aggregation = none ∨ aggregation = some "mean") then
          ([], .error (.valueError ("Unsupported aggregation '" ++
            aggregation.getD "" ++ "'")))
        else
          match parse_neighbors_query col q0 with
          | (ops0, .error e) => (ops0, .error e)
          | (ops0, .ok arr0) =>
            let arr1 := if aggregation = some "mean" ∧ arr0.ndim = 2 then
                (match arr0 with
                 | .two xss => NpArr.one (npMeanAxis0 xss)
                 | a => a)
              else arr0
            let single_query := arr1.ndim = 1
            let qlist : List (List ℚ) :=
              match arr1 with
              | .one v => [v]
              | .two xss => xss
            let index_ids := if cfg.patches_field.isSome then current_label_ids
              else current_sample_ids
            let step := qlist.foldl
              (fun acc qv =>
                let hits := searchHits cfg col qv index_ids kv
                (acc.1 ++ [RemoteOp.search qv kv index_ids],
                 acc.2.1 ++ [hits.map Row.pk],
                 acc.2.2 ++ [hits.map (fun r =>
                   vecDist cfg.index_params.metric_type qv r.vector)]))
              (ops0, [], [])
            match step with
            | (ops1, idss, dists) =>
              let out := if single_query then
                  if return_dists then KnnOut.flatPair (idss.headD []) (dists.headD [])
                  else KnnOut.flatIds (idss.headD [])
                else
                  if return_dists then KnnOut.nestedPair idss dists
                  else KnnOut.nestedIds idss
              (ops1, .ok out)

/-! ### Concrete fixtures used by the theorems and witnesses below -/

/-- A config for a whole-sample index with the `euclidean` metric, as
produced by `MilvusSimilarityConfig.__init__` with the default
arguments. -/
def cfgEuclid : MilvusSimilarityConfig :=
  ⟨none, none, some "euclidean", "ClientCollection", "http://localhost:19530",
    "", "", "Session", ⟨"L2", "HNSW", 8, 64⟩, ⟨"L2", 10⟩⟩

/-- The same config with a patches field configured. -/
def cfgPatches : MilvusSimilarityConfig :=
  ⟨none, some "ground_truth", some "euclidean", "ClientCollection",
    "http://localhost:19530", "", "", "Session", ⟨"L2", "HNSW", 8, 64⟩,
    ⟨"L2", 10⟩⟩

/-! ### Claims -/

/-- C1: refutation at the claimed input.  For a collection holding the
entry `("x", V1)`, `add_to_index` with the same ID, vector `V2 = [0, 1]`,
`overwrite=True` and the other flags at their defaults
(`allow_existing=True`, `warn_existing=False`) never queries the existing
IDs (the source only does so when
`warn_existing or not allow_existing or not overwrite`), hence issues no
remote delete, and the insert leaves TWO entries with primary key `"x"` —
the old `V1` row and the new `V2` row — not exactly one. -/
theorem C1_default_overwrite_inserts_duplicate :
    add_to_index [⟨"x", [1, 0], "x"⟩] (.two [[0, 1]]) ["x"] none
        true true false 100 =
      ([.insertRows ["x"] [.plist [0, 1]] ["x"]],
        .ok [⟨"x", [1, 0], "x"⟩, ⟨"x", [0, 1], "x"⟩]) := rfl

/-- C2: refutation at the claimed input.  With `allow_missing=False` and a
requested ID `"b"` absent from the collection, `remove_from_index` does
not fail: the source computes the missing set as
`set(existing_ids) - set(ids)` — existing minus requested, which is
always empty — so it silently proceeds to the delete.  The claim's
`NotFoundError` is never raised. -/
theorem C2_remove_missing_id_does_not_raise :
    remove_from_index [⟨"a", [1], "a"⟩] (some ["b"]) none false false =
      ([.queryIds ["b"], .deleteIds ["b"]], .ok [⟨"a", [1], "a"⟩]) := rfl

/-- C3: refutation at the claimed input.  With `overwrite=False` and the
ID `"a"` already present, the source's `np.delete(embeddings, del_inds)`
(no `axis`) flattens the `2 × 2` embeddings to `[1, 2, 3, 4]` and removes
flat element 0, and the `ids` list is never re-filtered, so the insert
columns are `["a", "b"]` / `[2, 3, 4]` / `["b"]` — of unequal lengths —
and the call fails instead of inserting only the non-existing row
`([3, 4], "b")`. -/
theorem C3_skip_on_conflict_flattens_and_fails :
    add_to_index [⟨"a", [10, 20], "a"⟩] (.two [[1, 2], [3, 4]]) ["a", "b"]
        none false true false 100 =
      ([.queryIds ["a", "b"]],
        .error (.dataNotMatch "column lengths differ")) := rfl

/-- C4: refutation at the claimed input.  With a patches field configured
and both `sample_ids=["s1"]` and `label_ids=["l1"]` given, the source
logs that the sample IDs will be ignored but then dispatches on
`sample_ids is not None` first, performing the sample-keyed probe: for
the collection `[("l1", [1, 2], "s1")]` this returns empty results (the
probe filters primary keys against sample IDs), not the label-keyed
lookup of `"l1"` that would return the stored entry. -/
theorem C4_both_ids_dispatches_on_sample_ids :
    get_embeddings cfgPatches [⟨"l1", [1, 2], "s1"⟩] (some ["s1"])
        (some ["l1"]) true false =
      .ok (.dtup [.darr [], .darr [], .darr []]) := rfl

/-- C5: refutation at the claimed input.  In label-ID mode,
`_get_patch_embeddings_from_label_ids` calls the public
`self.get_embeddings` (not `self._get_embeddings`), whose result is a
3-tuple of arrays; iterating that tuple and subscripting its first
component (a numpy array) with `"vector"` raises, so the direct lookup
the claim describes never happens: for `label_ids=["l1"]` over
`[("l1", [1, 2], "s1")]` the call errors instead of returning
`([1, 2], "s1", "l1")` with no missing IDs. -/
theorem C5_label_id_mode_raises_on_tuple_subscript :
    get_embeddings cfgPatches [⟨"l1", [1, 2], "s1"⟩] none (some ["l1"])
        true false =
      .error (.indexError "arrays cannot be indexed by str") := rfl

/-- C6: `kneighbors` fails with `InvalidArgument` (a `ValueError`)
whenever the query is `None`, or `reverse` is true, or `k` is `None`, or
`k` exceeds the max result size 16384, or the aggregation is neither
`None` nor `"mean"`; in all these cases no remote call at all (in
particular no search) has been issued. -/
theorem C6_kneighbors_validation (cfg : MilvusSimilarityConfig)
    (col : Collection) (csids clids : List String) (query : Option NQuery)
    (k : Option Nat) (reverse : Bool) (aggregation : Option String)
    (return_dists : Bool)
    (h : query = none ∨ reverse = true ∨ k = none ∨
      (∃ kv, k = some kv ∧ 16384 < kv) ∨
      ¬ (aggregation = none ∨ aggregation = some "mean")) :
    (kneighbors cfg col csids clids query k reverse aggregation
        return_dists).1 = [] ∧
    ∃ msg, (kneighbors cfg col csids clids query k reverse aggregation
        return_dists).2 = .error (.valueError msg) := by
  cases query with
  | none => exact ⟨rfl, ⟨_, rfl⟩⟩
  | some q0 =>
    cases reverse with
    | true => exact ⟨rfl, ⟨_, rfl⟩⟩
    | false =>
      cases k with
      | none => exact ⟨rfl, ⟨_, rfl⟩⟩
      | some kv =>
        by_cases hkv : kv > cfg.max_k
        · constructor
          · simp [kneighbors, hkv]
          · simp [kneighbors, hkv]
        · have hagg : ¬ (aggregation = none ∨ aggregation = some "mean") := by
            rcases h with h | h | h | ⟨kv2, hk2, hgt⟩ | h
            · exact absurd h (by simp)
            · exact absurd h (by simp)
            · exact absurd h (by simp)
            · rw [Option.some.injEq] at hk2
              subst hk2
              exact absurd hgt (by simpa [MilvusSimilarityConfig.max_k] using hkv)
            · exact h
          constructor
          · simp [kneighbors, hkv, hagg]
          · simp [kneighbors, hkv, hagg]

/-- C6 witness: a concrete instance (query `None`). -/
theorem C6_kneighbors_validation_witness :
    (kneighbors cfgEuclid [⟨"a", [1], "a"⟩] ["a"] [] none (some 1) false
        none false).1 = [] ∧
    ∃ msg, (kneighbors cfgEuclid [⟨"a", [1], "a"⟩] ["a"] [] none (some 1)
        false none false).2 = .error (.valueError msg) :=
  C6_kneighbors_validation cfgEuclid [⟨"a", [1], "a"⟩] ["a"] [] none
    (some 1) false none false (Or.inl rfl)

/-- C7: `add_to_index` with `allow_existing=False` and at least one
effective ID already present fails with `DuplicateIdError` (a
`ValueError` reporting the count of existing IDs and one example), and
at that point the only remote call issued is the existence query — no
delete and no insert — so the stored entries are unaltered. -/
theorem C7_disallowed_existing_raises_before_mutation
    (col : Collection) (embeddings : NpArr) (sample_ids : List String)
    (label_ids : Option (List String)) (overwrite warn_existing : Bool)
    (batch_size : Nat)
    (hex : get_existing_ids col (label_ids.getD sample_ids) ≠ []) :
    add_to_index col embeddings sample_ids label_ids overwrite false
        warn_existing batch_size =
      ([.queryIds (label_ids.getD sample_ids)],
        .error (.valueError ("Found " ++
          toString (get_existing_ids col (label_ids.getD sample_ids)).length ++
          " IDs (eg " ++
          (get_existing_ids col (label_ids.getD sample_ids)).headD "" ++
          ") that already exist in the index"))) := by
  have hlen : 0 < (get_existing_ids col (label_ids.getD sample_ids)).length :=
    List.length_pos.mpr hex
  simp [add_to_index, hlen]

/-- C7 witness: a concrete instance. -/
theorem C7_disallowed_existing_raises_before_mutation_witness :
    add_to_index [⟨"x", [1], "x"⟩] (.two [[2]]) ["x"] none true false
        false 100 =
      ([.queryIds ((none : Option (List String)).getD ["x"])],
        .error (.valueError ("Found " ++
          toString (get_existing_ids [⟨"x", [1], "x"⟩]
            ((none : Option (List String)).getD ["x"])).length ++
          " IDs (eg " ++
          (get_existing_ids [⟨"x", [1], "x"⟩]
            ((none : Option (List String)).getD ["x"])).headD "" ++
          ") that already exist in the index"))) :=
  C7_disallowed_existing_raises_before_mutation [⟨"x", [1], "x"⟩]
    (.two [[2]]) ["x"] none true false 100 (by decide)

/-- C8: with `aggregation="mean"` and a resolved 2-D batch of query
vectors (each of length `d`), `kneighbors` issues exactly one remote
search, whose query vector is the componentwise mean of the batch
(query-side aggregation), and the single-query result is returned as
flat lists (`flatIds` / `flatPair`, not the nested per-query form). -/
theorem C8_mean_aggregation_single_search (cfg : MilvusSimilarityConfig)
    (col : Collection) (csids clids : List String) (r0 : List ℚ)
    (rest : List (List ℚ)) (kv d : Nat) (return_dists : Bool)
    (hd : ∀ row ∈ r0 :: rest, row.length = d) (hk : kv ≤ 16384) :
    (kneighbors cfg col csids clids (some (.qnum (.two (r0 :: rest))))
        (some kv) false (some "mean") return_dists).1 =
      [.search (npMeanAxis0 (r0 :: rest)) kv
        (if cfg.patches_field.isSome then clids else csids)] ∧
    npMeanAxis0 (r0 :: rest) =
      (List.range d).map (fun j =>
        ((r0 :: rest).map (fun row => row.getD j 0)).sum /
          (((r0 :: rest).length : ℚ))) ∧
    (kneighbors cfg col csids clids (some (.qnum (.two (r0 :: rest))))
        (some kv) false (some "mean") return_dists).2 =
      .ok (if return_dists then
          KnnOut.flatPair
            ((searchHits cfg col (npMeanAxis0 (r0 :: rest))
              (if cfg.patches_field.isSome then clids else csids) kv).map Row.pk)
            ((searchHits cfg col (npMeanAxis0 (r0 :: rest))
              (if cfg.patches_field.isSome then clids else csids) kv).map
              (fun r => vecDist cfg.index_params.metric_type
                (npMeanAxis0 (r0 :: rest)) r.vector))
        else
          KnnOut.flatIds
            ((searchHits cfg col (npMeanAxis0 (r0 :: rest))
              (if cfg.patches_field.isSome then clids else csids) kv).map
              Row.pk)) := by
  have hkv : ¬ kv > cfg.max_k := by
    simp only [MilvusSimilarityConfig.max_k]
    omega
  refine ⟨?_, ?_, ?_⟩
  · simp [kneighbors, hkv, parse_neighbors_query, NpArr.ndim]
  · have h0 : r0.length = d := hd r0 (List.mem_cons_self r0 rest)
    simp [npMeanAxis0, h0]
  · simp [kneighbors, hkv, parse_neighbors_query, NpArr.ndim]

/-- C8 witness: a concrete instance (two query vectors of dimension 2,
whose mean is `[1/2, 1/2]`). -/
theorem C8_mean_aggregation_single_search_witness :
    (kneighbors cfgEuclid [⟨"a", [1, 0], "a"⟩, ⟨"b", [0, 1], "b"⟩]
        ["a", "b"] [] (some (.qnum (.two ([1, 0] :: [[0, 1]]))))
        (some 2) false (some "mean") false).1 =
      [.search (npMeanAxis0 ([1, 0] :: [[0, 1]])) 2
        (if cfgEuclid.patches_field.isSome then [] else ["a", "b"])] ∧
    npMeanAxis0 ([1, 0] :: [[0, 1]]) =
      (List.range 2).map (fun j =>
        (([1, 0] :: [[0, 1]]).map (fun row => row.getD j 0)).sum /
          ((([1, 0] :: ([[0, 1]] : List (List ℚ))).length : ℚ))) ∧
    (kneighbors cfgEuclid [⟨"a", [1, 0], "a"⟩, ⟨"b", [0, 1], "b"⟩]
        ["a", "b"] [] (some (.qnum (.two ([1, 0] :: [[0, 1]]))))
        (some 2) false (some "mean") false).2 =
      .ok (if false then
          KnnOut.flatPair
            ((searchHits cfgEuclid [⟨"a", [1, 0], "a"⟩, ⟨"b", [0, 1], "b"⟩]
              (npMeanAxis0 ([1, 0] :: [[0, 1]]))
              (if cfgEuclid.patches_field.isSome then [] else ["a", "b"]) 2).map
              Row.pk)
            ((searchHits cfgEuclid [⟨"a", [1, 0], "a"⟩, ⟨"b", [0, 1], "b"⟩]
              (npMeanAxis0 ([1, 0] :: [[0, 1]]))
              (if cfgEuclid.patches_field.isSome then [] else ["a", "b"]) 2).map
              (fun r => vecDist cfgEuclid.index_params.metric_type
                (npMeanAxis0 ([1, 0] :: [[0, 1]])) r.vector))
        else
          KnnOut.flatIds
            ((searchHits cfgEuclid [⟨"a", [1, 0], "a"⟩, ⟨"b", [0, 1], "b"⟩]
              (npMeanAxis0 ([1, 0] :: [[0, 1]]))
              (if cfgEuclid.patches_field.isSome then [] else ["a", "b"]) 2).map
              Row.pk)) :=
  C8_mean_aggregation_single_search cfgEuclid
    [⟨"a", [1, 0], "a"⟩, ⟨"b", [0, 1], "b"⟩] ["a", "b"] [] [1, 0] [[0, 1]]
    2 2 false (by decide) (by decide)

/-- C9: `MilvusSimilarityConfig` construction with `metric=None` passes
the unsupported-metric guard (which only rejects non-`None` values
outside the supported set) and instead fails with a `KeyError` in the
derived-parameter computation `_SUPPORTED_METRICS[metric]` — a different
error than the `ValueError` raised for an unsupported metric string. -/
theorem C9_metric_none_keyerror (s : String)
    (hs : SUPPORTED_METRICS.lookup s = none) :
    MilvusSimilarityConfig.init none none none "ClientCollection"
        "http://localhost:19530" "" "" "Session" =
      .error (.keyError "None") ∧
    MilvusSimilarityConfig.init none none (some s) "ClientCollection"
        "http://localhost:19530" "" "" "Session" =
      .error (.valueError ("Unsupported metric '" ++ s ++
        "'. Supported values are (dotproduct, euclidean)")) ∧
    (∀ k m, PyErr.keyError k ≠ PyErr.valueError m) := by
  refine ⟨rfl, ?_, fun k m hcontra => PyErr.noConfusion hcontra⟩
  simp [MilvusSimilarityConfig.init, hs]

/-- C9 witness: the concrete unsupported metric string `"cosine"`. -/
theorem C9_metric_none_keyerror_witness :
    MilvusSimilarityConfig.init none none none "ClientCollection"
        "http://localhost:19530" "" "" "Session" =
      .error (.keyError "None") ∧
    MilvusSimilarityConfig.init none none (some "cosine") "ClientCollection"
        "http://localhost:19530" "" "" "Session" =
      .error (.valueError ("Unsupported metric '" ++ "cosine" ++
        "'. Supported values are (dotproduct, euclidean)")) ∧
    (∀ k m, PyErr.keyError k ≠ PyErr.valueError m) :=
  C9_metric_none_keyerror "cosine" (by decide)

/-- C10: a `kneighbors` call with a single string-ID query whose ID is
absent from the collection does not fail with `NotFoundError`: the
ID-to-vector resolution returns an empty array and `query[0, :]` raises
an out-of-bounds `IndexError`; the only remote call issued is the
embedding query — no search. -/
theorem C10_missing_string_query_index_error (cfg : MilvusSimilarityConfig)
    (col : Collection) (csids clids : List String) (s : String) (kv : Nat)
    (return_dists : Bool) (hmiss : ∀ r ∈ col, r.pk ≠ s) (hk : kv ≤ 16384) :
    kneighbors cfg col csids clids (some (.qstr s)) (some kv) false none
        return_dists =
      ([.queryIds [s]], .error (.indexError "index 0 is out of bounds")) := by
  have hkv : ¬ kv > cfg.max_k := by
    simp only [MilvusSimilarityConfig.max_k]
    omega
  have hq : query_by_pks col [s] = [] := by
    rw [query_by_pks, List.filter_eq_nil_iff]
    intro r hr
    simp [hmiss r hr]
  simp [kneighbors, hkv, parse_neighbors_query, hq]

/-- C10 witness: a concrete instance (requesting the absent ID `"b"`). -/
theorem C10_missing_string_query_index_error_witness :
    kneighbors cfgEuclid [⟨"a", [1], "a"⟩] ["a"] [] (some (.qstr "b"))
        (some 5) false none false =
      ([.queryIds ["b"]], .error (.indexError "index 0 is out of bounds")) :=
  C10_missing_string_query_index_error cfgEuclid [⟨"a", [1], "a"⟩] ["a"] []
    "b" 5 false (by decide) (by decide)

end Milvus
